import Mathlib

/-!
Shallow embedding of `src/app.py` (lexi_boost), covering the markdown link
rewriter `linkify_list_section`, the per-request error handling of
`ask_openai`, and the tab-1 word lookup flow.  Text is modelled over `\n`
separated strings; Python string helpers (`strip`, `lower`, `lstrip`,
`splitlines`, `replace`, substring test, `re.sub` with a line-anchored
literal pattern) are embedded as executable functions on `List Char`.
-/

/-- Whitespace set of Python `str.strip` (ASCII part: space, tab, newline,
carriage return, vertical tab, form feed). -/
def isPySpace (c : Char) : Bool :=
  c == ' ' || c == '\t' || c == '\n' || c == '\r' || c == '\x0B' || c == '\x0C'

/-- Python `str.strip()` on the character list: drop leading and trailing
whitespace. -/
def pyStripL (l : List Char) : List Char :=
  ((l.dropWhile isPySpace).reverse.dropWhile isPySpace).reverse

/-- Python `str.strip()`. -/
def pyStrip (s : String) : String :=
  String.mk (pyStripL s.data)

/-- Python `str.lower()` (ASCII case folding, which is all the program's
keywords need). -/
def pyLower (s : String) : String :=
  String.mk (s.data.map Char.toLower)

/-- Python `str.lstrip(cs)`: drop leading characters belonging to the set
`cs` (the source calls it as `lstrip("- ")`, i.e. the set {dash, space}). -/
def pyLStrip (s : String) (cs : List Char) : String :=
  String.mk (s.data.dropWhile (fun c => cs.contains c))

/-- Python `needle in hay` substring test on character lists. -/
def containsSub : List Char → List Char → Bool
  | _, [] => true
  | [], _ :: _ => false
  | c :: rest, p :: prest =>
    List.isPrefixOf (p :: prest) (c :: rest) || containsSub rest (p :: prest)

/-- `re.match(r"^- ", s)` for the literal pattern used by the source:
a prefix test. -/
def pyStartsWith (s pre : String) : Bool :=
  List.isPrefixOf pre.data s.data

/-- Python `str.replace(old, new)` with fuel (fuel `= length` suffices);
replaces non-overlapping occurrences left to right.  (The program only
calls it with the non-empty pattern `" "`.) -/
def replFuel : Nat → List Char → List Char → List Char → List Char
  | 0, l, _, _ => l
  | n + 1, l, old, new =>
    match l with
    | [] => []
    | c :: rest =>
      if !old.isEmpty && List.isPrefixOf old (c :: rest) then
        new ++ replFuel n (List.drop old.length (c :: rest)) old new
      else
        c :: replFuel n rest old new

/-- Python `str.replace(old, new)` for a non-empty `old`. -/
def pyReplace (s old new : String) : String :=
  String.mk (replFuel s.data.length s.data old.data new.data)

/-- Python `str.splitlines()` helper: split on `'\n'`, accumulator reversed. -/
def splitLinesAux : List Char → List Char → List (List Char)
  | [], acc => [acc.reverse]
  | c :: rest, acc =>
    if c = '\n' then acc.reverse :: splitLinesAux rest []
    else splitLinesAux rest (c :: acc)

/-- Python `str.splitlines()` (modelled for `'\n'` line endings): the empty
string has no lines, and a trailing newline does not create a final empty
line. -/
def pySplitlines (s : String) : List String :=
  if s.data.isEmpty then []
  else
    let parts := splitLinesAux s.data []
    let parts := if parts.getLast? = some [] then parts.dropLast else parts
    parts.map (fun l => String.mk l)

/-- Python `"\n".join(lines)`. -/
def joinLines : List String → String
  | [] => ""
  | [l] => l
  | l :: rest => l ++ "\n" ++ joinLines rest

/-- `re.sub(pat, "", text, flags=re.MULTILINE)` for the literal,
line-anchored patterns `"^### Synonyms\n"` / `"^### Phonetically Similar
Words\n"`: delete every occurrence of `pat` that begins at a line start.
After a deletion the scan stays at a line start, which is correct because
both patterns used by the source end in `'\n'`. -/
def subLSFuel : Nat → Bool → List Char → List Char → List Char
  | 0, _, l, _ => l
  | n + 1, atStart, l, pat =>
    match l with
    | [] => []
    | c :: rest =>
      if atStart && !pat.isEmpty && List.isPrefixOf pat (c :: rest) then
        subLSFuel n true (List.drop pat.length (c :: rest)) pat
      else
        c :: subLSFuel n (c == '\n') rest pat

/-- `re.sub("^" ++ pat, "", text, flags=re.MULTILINE)` for a literal `pat`. -/
def pySubLineStart (pat text : String) : String :=
  String.mk (subLSFuel text.data.length true text.data pat.data)

/-- First recognized keyword contained (case-insensitively, substring
match) in the stripped lowered line; embeds the inner
`for keyword in section_header_keywords: if keyword in line_strip: ... break`
loop of `linkify_list_section`. -/
def sectionKeywordHit (keywords : List String) (line : String) : Option String :=
  keywords.find? (fun k => containsSub (pyLower (pyStrip line)).data k.data)

/-- Update of the `current_section` cursor on one line: a keyword line sets
the cursor to the first matching keyword, every other line leaves it. -/
def updateSection (keywords : List String) (cur : Option String) (line : String) :
    Option String :=
  match sectionKeywordHit keywords line with
  | some k => some k
  | none => cur

/-- `phrase = line.strip().lstrip("- ").strip()` from the source. -/
def phraseOf (line : String) : String :=
  pyStrip (pyLStrip (pyStrip line) ['-', ' '])

/-- `link = f"[{phrase}](?word={phrase.replace(' ', '%20')}&lang={lang})"`
from the source. -/
def linkFor (lang phrase : String) : String :=
  "[" ++ phrase ++ "](?word=" ++ pyReplace phrase " " "%20" ++ "&lang=" ++ lang ++ ")"

/-- Per-line body of the rewriting loop of `linkify_list_section`, run with
the already-updated cursor: a bullet line in an eligible section is
replaced by `- {link}` when its phrase is non-empty (and emits nothing when
the phrase is empty); every other line is appended unchanged. -/
def processLine (lang : String) (cur : Option String) (line : String) : List String :=
  if (cur == some "synonym" || cur == some "phonetically")
      && pyStartsWith (pyStrip line) "- " then
    if phraseOf line == "" then []
    else ["- " ++ linkFor lang (phraseOf line)]
  else [line]

/-- The whole `for line in lines` loop of `linkify_list_section`, threading
the sticky `current_section` cursor. -/
def linkifyLines (keywords : List String) (lang : String) :
    Option String → List String → List String
  | _, [] => []
  | cur, line :: rest =>
    let cur' := updateSection keywords cur line
    processLine lang cur' line ++ linkifyLines keywords lang cur' rest

/-- `linkify_list_section(text, section_header_keywords, lang)` from
`src/app.py`. -/
def linkify_list_section (text : String) (section_header_keywords : List String)
    (lang : String) : String :=
  joinLines (linkifyLines section_header_keywords lang none (pySplitlines text))

/-- The `current_section` cursor after scanning a list of lines (the state
`linkifyLines` threads through its loop). -/
def sectionAfter (keywords : List String) : Option String → List String → Option String
  | cur, [] => cur
  | cur, l :: rest => sectionAfter keywords (updateSection keywords cur l) rest

/-- The cursor each line is processed with: for every line of the input, in
order, the value of `current_section` after the keyword scan of that line
(the state under which `linkifyLines` runs `processLine` on it). -/
def sectionTrace (keywords : List String) : Option String → List String → List (Option String)
  | _, [] => []
  | cur, l :: rest =>
    let cur' := updateSection keywords cur l
    cur' :: sectionTrace keywords cur' rest

/-- Holds when no bullet line in an eligible section has an empty phrase,
i.e. when the rewriting loop emits exactly one output line per input line. -/
def noEmptyBullet (keywords : List String) (lang : String) :
    Option String → List String → Bool
  | _, [] => true
  | cur, line :: rest =>
    let cur' := updateSection keywords cur line
    !(processLine lang cur' line).isEmpty && noEmptyBullet keywords lang cur' rest

/-- Spec-side description of the link-target encoding: each space becomes
the three characters `%20`, every other character is copied verbatim. -/
def specEncodeSpaces : List Char → List Char
  | [] => []
  | c :: rest => (if c = ' ' then ['%', '2', '0'] else [c]) ++ specEncodeSpaces rest

/-- The five prompt categories of the tab-1 word lookup (meta info,
definition, contextual example, synonyms, phonetically similar words). -/
inductive Cat where
  | meta
  | defn
  | exmpl
  | synonyms
  | phonetics
deriving DecidableEq

/-- The data sent with one completion request by `ask_openai`: model
identifier, system persona message, user prompt, per-request timeout in
seconds (the source also fixes `temperature=0.7`). -/
structure Request where
  model : String
  system : String
  user : String
  timeoutSec : Nat
deriving DecidableEq

/-- `MODEL = "gpt-4.1-nano"` from `src/app.py`. -/
def MODEL : String := "gpt-4.1-nano"

/-- The request `ask_openai` builds for a prompt. -/
def mkRequest (prompt : String) : Request :=
  ⟨MODEL, "You are a helpful English teacher.", prompt, 30⟩

/-- Observable events of the tab-1 flow: a completion-endpoint request, or
a markdown block delivered to the renderer (`st.markdown`). -/
inductive Ev where
  | call : Cat → Request → Ev
  | out : String → Ev
deriving DecidableEq

/-- The `try/except` body of `ask_openai`: a successful completion is
stripped and returned; an exception becomes the string `"Error: <message>"`. -/
def ask_openai (resp : Except String String) : String :=
  match resp with
  | Except.ok r => pyStrip r
  | Except.error e => "Error: " ++ e

/-- `prompt_meta` f-string from the source. -/
def prompt_meta (word : String) : String :=
  "\nGive only the CEFR level (A1–C2) and word frequency (common, medium, rare) for the English word: \"" ++ word ++ "\".\nFormat exactly like this:\nWord: " ++ word ++ " (correct form if typo)\nCEFR: B2\nFrequency: Medium\nUse markdown formatting only, no explanations or additional text.\n"

/-- `definition_prompt` f-string from the source. -/
def definition_prompt (word : String) : String :=
  "Provide a concise definition of the word '" ++ word ++ "' using simple language in English. If the word has multiple meanings, include each meaning separately in a short, clear format. Do not include introductions or conclusions."

/-- `example_prompt` f-string from the source. -/
def example_prompt (word language : String) : String :=
  "Write 1–2 short, natural " ++ language ++ " sentences using the word '" ++ word ++ "' in context. If there are multiple meanings, include one sentence per meaning. Do not add any commentary or explanation."

/-- `synonym_prompt` f-string from the source. -/
def synonym_prompt (word language : String) : String :=
  "List max 3 (if exist) '" ++ language ++ "' synonyms of the word '" ++ word ++ "' as a clean bullet list. If the word has multiple meanings, provide synonyms for each meaning, but make output one. Start with '### Synonyms' and do not include any explanation or intro text."

/-- `phonetic_prompt` f-string from the source. -/
def phonetic_prompt (word language : String) : String :=
  "List max 3 (if exist) " ++ language ++ " words that sound similar to '" ++ word ++ "', excluding " ++ word ++ ". Format as a bullet list starting with '### Phonetically Similar Words'. Do not include any explanation or filler text."

/-- The tab-1 word lookup body (`src/app.py` lines 85-128), as the ordered
list of its observable events.  `endpoint` abstracts the completion
endpoint: the response, or the exception message, of the call made for each
category.  The source executes the five `ask_openai` calls one after the
other, rendering each block as soon as it is available. -/
def tab1Body (endpoint : Cat → Except String String) (word language : String) :
    List Ev :=
  let meta := ask_openai (endpoint Cat.meta)
  let definition := ask_openai (endpoint Cat.defn)
  let example1 := ask_openai (endpoint Cat.exmpl)
  let synonyms := ask_openai (endpoint Cat.synonyms)
  let phonetics := ask_openai (endpoint Cat.phonetics)
  let linked_synonyms :=
    pySubLineStart "### Synonyms\n"
      (linkify_list_section synonyms ["synonym"] language)
  let linked_phonetics :=
    pySubLineStart "### Phonetically Similar Words\n"
      (linkify_list_section phonetics ["phonetically"] language)
  [Ev.call Cat.meta (mkRequest (prompt_meta word)),
   Ev.out ("**📊 Word Level Info**\n\n" ++ meta),
   Ev.out "### 📖 Definition",
   Ev.call Cat.defn (mkRequest (definition_prompt word)),
   Ev.out definition,
   Ev.out "### 🧠 Contextual Example",
   Ev.call Cat.exmpl (mkRequest (example_prompt word language)),
   Ev.out example1,
   Ev.out "### 🔁 Synonyms",
   Ev.call Cat.synonyms (mkRequest (synonym_prompt word language)),
   Ev.out linked_synonyms,
   Ev.out "### 🔊 Phonetically Similar Words",
   Ev.call Cat.phonetics (mkRequest (phonetic_prompt word language)),
   Ev.out linked_phonetics]
  ++ (if language = "English" then
        [Ev.out ("[📚 Hear on Cambridge Dictionary](https://dictionary.cambridge.org/dictionary/english/" ++ pyLower word ++ ")")]
      else [])

/-- The guard `if trigger_word and word:` around the tab-1 body; a Python
string is truthy exactly when it is non-empty. -/
def tab1Main (endpoint : Cat → Except String String) (trigger_word : Bool)
    (word language : String) : List Ev :=
  if trigger_word && !word.data.isEmpty then tab1Body endpoint word language
  else []

/-- Whether an event is a completion-endpoint request. -/
def isCall : Ev → Bool
  | Ev.call _ _ => true
  | Ev.out _ => false

/-- The categories of the requests of a trace, in order. -/
def catsOf (tr : List Ev) : List Cat :=
  tr.filterMap (fun e => match e with
    | Ev.call c _ => some c
    | Ev.out _ => none)

/-- The model identifiers of the requests of a trace, in order. -/
def modelsOf (tr : List Ev) : List String :=
  tr.filterMap (fun e => match e with
    | Ev.call _ r => some r.model
    | Ev.out _ => none)

/-- Whether some request is issued after a block has already been delivered
to the renderer (the negation of a scatter-gather join point). -/
def callAfterOut : List Ev → Bool
  | [] => false
  | Ev.out _ :: rest => rest.any isCall || callAfterOut rest
  | Ev.call _ _ :: rest => callAfterOut rest

/-- An endpoint on which every category succeeds with the response "ok". -/
def endpoint0 : Cat → Except String String := fun _ => Except.ok "ok"

/-- An endpoint on which the synonyms call throws and the others succeed. -/
def endpointW : Cat → Except String String
  | Cat.synonyms => Except.error "boom"
  | _ => Except.ok "ok"

/- ------------------------------------------------------------------ -/
/- Helper lemmas                                                       -/
/- ------------------------------------------------------------------ -/

/-- The rewriting loop emits, for one line, either nothing or exactly one
line. -/
lemma processLine_eq (lang : String) (cur : Option String) (line : String) :
    processLine lang cur line = [] ∨ ∃ x, processLine lang cur line = [x] := by
  unfold processLine
  split
  · split
    · exact Or.inl rfl
    · exact Or.inr ⟨_, rfl⟩
  · exact Or.inr ⟨_, rfl⟩

/-- Any line the rewriting loop emits for an input line is that line
unchanged, or — only when the cursor is on an eligible section and the
line is a bullet with non-empty phrase — its link-wrapped form. -/
lemma mem_processLine (lang : String) (cur : Option String) (line x : String)
    (hx : x ∈ processLine lang cur line) :
    x = line
    ∨ ((cur = some "synonym" ∨ cur = some "phonetically")
        ∧ pyStartsWith (pyStrip line) "- " = true
        ∧ phraseOf line ≠ ""
        ∧ x = "- " ++ linkFor lang (phraseOf line)) := by
  unfold processLine at hx
  split at hx
  · rename_i hcond
    rw [Bool.and_eq_true, Bool.or_eq_true] at hcond
    have helig : cur = some "synonym" ∨ cur = some "phonetically" := by
      rcases hcond.1 with h | h
      · exact Or.inl (beq_iff_eq.mp h)
      · exact Or.inr (beq_iff_eq.mp h)
    split at hx
    · simp at hx
    · rename_i hp
      simp at hx
      exact Or.inr ⟨helig, hcond.2, by simpa using hp, hx⟩
  · simp at hx
    exact Or.inl hx

/-- The rewriting loop never produces more lines than it consumes. -/
lemma linkifyLines_length_le (keywords : List String) (lang : String) :
    ∀ (ls : List String) (cur : Option String),
      (linkifyLines keywords lang cur ls).length ≤ ls.length := by
  intro ls
  induction ls with
  | nil => intro cur; simp [linkifyLines]
  | cons l tl ih =>
    intro cur
    have h1 := processLine_eq lang (updateSection keywords cur l) l
    have h2 := ih (updateSection keywords cur l)
    rcases h1 with h1 | ⟨x, h1⟩ <;> simp [linkifyLines, h1] <;> omega

/-- When no eligible bullet has an empty phrase, the rewriting loop is
line-count preserving. -/
lemma linkifyLines_length_eq (keywords : List String) (lang : String) :
    ∀ (ls : List String) (cur : Option String),
      noEmptyBullet keywords lang cur ls = true →
      (linkifyLines keywords lang cur ls).length = ls.length := by
  intro ls
  induction ls with
  | nil => intro cur _; rfl
  | cons l tl ih =>
    intro cur h
    have h' : (!(processLine lang (updateSection keywords cur l) l).isEmpty
        && noEmptyBullet keywords lang (updateSection keywords cur l) tl) = true := h
    rw [Bool.and_eq_true] at h'
    rcases processLine_eq lang (updateSection keywords cur l) l with h1 | ⟨x, h1⟩
    · rw [h1] at h'
      simp at h'
    · have h2 := ih (updateSection keywords cur l) h'.2
      simp [linkifyLines, h1, h2]

/-- When some bullet line in an eligible section has an empty phrase, the
rewriting loop deletes it and the output is strictly shorter. -/
lemma linkifyLines_length_lt (keywords : List String) (lang : String) :
    ∀ (ls : List String) (cur : Option String),
      noEmptyBullet keywords lang cur ls = false →
      (linkifyLines keywords lang cur ls).length < ls.length := by
  intro ls
  induction ls with
  | nil => intro cur h; simp [noEmptyBullet] at h
  | cons l tl ih =>
    intro cur h
    have h' : (!(processLine lang (updateSection keywords cur l) l).isEmpty
        && noEmptyBullet keywords lang (updateSection keywords cur l) tl) = false := h
    cases hpe : (processLine lang (updateSection keywords cur l) l).isEmpty with
    | true =>
      have hnil : processLine lang (updateSection keywords cur l) l = [] := by
        rcases processLine_eq lang (updateSection keywords cur l) l with h1 | ⟨x, h1⟩
        · exact h1
        · rw [h1] at hpe; simp at hpe
      have hle := linkifyLines_length_le keywords lang tl (updateSection keywords cur l)
      simp only [linkifyLines, hnil, List.nil_append, List.length_cons]
      omega
    | false =>
      rw [hpe] at h'
      simp only [Bool.not_false, Bool.true_and] at h'
      have hlt := ih (updateSection keywords cur l) h'
      rcases processLine_eq lang (updateSection keywords cur l) l with h1 | ⟨x, h1⟩ <;>
        simp only [linkifyLines, h1, List.nil_append, List.cons_append,
          List.length_cons, List.length_nil] <;> omega

/-- The rewriting loop is the in-order concatenation of the per-line
images: each input line, processed under the cursor recorded for it by
`sectionTrace`, contributes its (zero- or one-line) image in place. -/
lemma linkifyLines_eq_join (keywords : List String) (lang : String) :
    ∀ (ls : List String) (cur : Option String),
      linkifyLines keywords lang cur ls
        = (List.map (fun p => processLine lang p.2 p.1)
            (List.zip ls (sectionTrace keywords cur ls))).flatten := by
  intro ls
  induction ls with
  | nil => intro cur; rfl
  | cons l tl ih =>
    intro cur
    simp only [linkifyLines, sectionTrace, List.zip_cons_cons, List.map_cons,
      List.flatten_cons]
    rw [ih (updateSection keywords cur l)]

/-- Every line of the rewriting loop's output is an input line passed
through unchanged, or the link-wrapped form of a bullet line processed
with an eligible active section and a non-empty phrase. -/
lemma linkifyLines_mem (keywords : List String) (lang : String) :
    ∀ (ls : List String) (cur : Option String) (x : String),
      x ∈ linkifyLines keywords lang cur ls →
      x ∈ ls
      ∨ ∃ p ∈ List.zip ls (sectionTrace keywords cur ls),
          (p.2 = some "synonym" ∨ p.2 = some "phonetically")
          ∧ pyStartsWith (pyStrip p.1) "- " = true
          ∧ phraseOf p.1 ≠ ""
          ∧ x = "- " ++ linkFor lang (phraseOf p.1) := by
  intro ls cur x hx
  rw [linkifyLines_eq_join keywords lang ls cur] at hx
  rcases List.mem_flatten.mp hx with ⟨l', hl', hxl⟩
  rcases List.mem_map.mp hl' with ⟨p, hp, rfl⟩
  rcases mem_processLine lang p.2 p.1 x hxl with h | h
  · exact Or.inl (h ▸ (List.of_mem_zip hp).1)
  · exact Or.inr ⟨p, hp, h⟩

/-- The rewriting loop splits along list append, with the cursor threaded
by `sectionAfter`. -/
lemma linkifyLines_append (keywords : List String) (lang : String) :
    ∀ (ls1 ls2 : List String) (cur : Option String),
      linkifyLines keywords lang cur (ls1 ++ ls2)
        = linkifyLines keywords lang cur ls1
          ++ linkifyLines keywords lang (sectionAfter keywords cur ls1) ls2 := by
  intro ls1
  induction ls1 with
  | nil => intro ls2 cur; rfl
  | cons l tl ih =>
    intro ls2 cur
    simp [linkifyLines, sectionAfter, ih, List.append_assoc]

/-- Characterization of `phrase.replace(' ', '%20')`: with the single-space
pattern, replacement is the character-wise space encoding. -/
lemma replFuel_space : ∀ (n : Nat) (l : List Char), l.length ≤ n →
    replFuel n l [' '] ['%', '2', '0'] = specEncodeSpaces l := by
  intro n
  induction n with
  | zero =>
    intro l hl
    have hnil : l = [] := List.length_eq_zero.mp (Nat.le_zero.mp hl)
    subst hnil
    rfl
  | succ n ih =>
    intro l hl
    cases l with
    | nil => rfl
    | cons c rest =>
      have hrest : rest.length ≤ n := by
        simp only [List.length_cons] at hl
        omega
      have hunf : replFuel (n + 1) (c :: rest) [' '] ['%', '2', '0']
          = if (!([' '] : List Char).isEmpty && List.isPrefixOf [' '] (c :: rest)) then
              ['%', '2', '0']
                ++ replFuel n (List.drop ([' '] : List Char).length (c :: rest))
                    [' '] ['%', '2', '0']
            else c :: replFuel n rest [' '] ['%', '2', '0'] := rfl
      by_cases hc : c = ' '
      · subst hc
        have hcond : (!([' '] : List Char).isEmpty
            && List.isPrefixOf [' '] (' ' :: rest)) = true := by
          simp [List.isPrefixOf]
        rw [hunf, hcond]
        simp only [if_true, List.length_singleton, List.drop_succ_cons, List.drop_zero]
        rw [ih rest hrest]
        simp [specEncodeSpaces]
      · have hcond : (!([' '] : List Char).isEmpty
            && List.isPrefixOf [' '] (c :: rest)) = false := by
          simp only [List.isPrefixOf, List.isEmpty_cons, Bool.not_false, Bool.true_and]
          rw [Bool.and_eq_false_iff]
          left
          rw [beq_eq_false_iff_ne]
          exact fun h => hc h.symm
        rw [hunf, hcond]
        simp only [Bool.false_eq_true, if_false]
        rw [ih rest hrest]
        simp [specEncodeSpaces, hc]

/-- `pyReplace` with pattern `" "` and replacement `"%20"` is exactly the
character-wise space encoding. -/
lemma pyReplace_space (p : String) :
    pyReplace p " " "%20" = String.mk (specEncodeSpaces p.data) := by
  unfold pyReplace
  have h1 : (" " : String).data = [' '] := rfl
  have h2 : ("%20" : String).data = ['%', '2', '0'] := rfl
  rw [h1, h2, replFuel_space p.data.length p.data (Nat.le_refl _)]

/- ------------------------------------------------------------------ -/
/- Claim theorems                                                      -/
/- ------------------------------------------------------------------ -/

/-- C1 (counterexample): the claim "the output of linkify has exactly the
same number of lines as the input, no line is deleted" is false: on the
input `"### Synonyms\n- -"` the bullet line's phrase strips to the empty
string and the line is deleted, so a 2-line input yields a 1-line output. -/
theorem c1_cex :
    (pySplitlines (linkify_list_section "### Synonyms\n- -" ["synonym"] "English")).length
      ≠ (pySplitlines "### Synonyms\n- -").length := by decide

/-- C1 (amended): the rewriting loop of `linkify_list_section` never emits
more lines than the input; it is the in-order, in-place concatenation of
the per-line images (each input line contributes zero or one output lines
at its own position — no reordering, no duplication); every output line is
an input line passed through unchanged or a bullet line in a link-eligible
section, with non-empty phrase, replaced by its link-wrapped form; and the
line count equals the input's exactly when no bullet line in a
link-eligible section has an empty phrase (such bullets are the only
deleted lines, and deleting one makes the output strictly shorter). -/
theorem c1_line_accounting (keywords : List String) (lang text : String) :
    (linkifyLines keywords lang none (pySplitlines text)).length
        ≤ (pySplitlines text).length
    ∧ (noEmptyBullet keywords lang none (pySplitlines text) = true ↔
        (linkifyLines keywords lang none (pySplitlines text)).length
          = (pySplitlines text).length)
    ∧ linkifyLines keywords lang none (pySplitlines text)
        = (List.map (fun p => processLine lang p.2 p.1)
            (List.zip (pySplitlines text)
              (sectionTrace keywords none (pySplitlines text)))).flatten
    ∧ (∀ x ∈ linkifyLines keywords lang none (pySplitlines text),
        x ∈ pySplitlines text
        ∨ ∃ p ∈ List.zip (pySplitlines text)
              (sectionTrace keywords none (pySplitlines text)),
            (p.2 = some "synonym" ∨ p.2 = some "phonetically")
            ∧ pyStartsWith (pyStrip p.1) "- " = true
            ∧ phraseOf p.1 ≠ ""
            ∧ x = "- " ++ linkFor lang (phraseOf p.1)) := by
  refine ⟨linkifyLines_length_le keywords lang (pySplitlines text) none, ⟨?_, ?_⟩,
    linkifyLines_eq_join keywords lang (pySplitlines text) none,
    fun x hx => linkifyLines_mem keywords lang (pySplitlines text) none x hx⟩
  · exact fun h => linkifyLines_length_eq keywords lang (pySplitlines text) none h
  · intro h
    cases hne : noEmptyBullet keywords lang none (pySplitlines text) with
    | true => rfl
    | false =>
      have hlt := linkifyLines_length_lt keywords lang (pySplitlines text) none hne
      omega

/-- C1 (witness): on `"### Synonyms\n- happy"` there is no empty-phrase
bullet and the line count is preserved. -/
theorem c1_line_accounting_w :
    noEmptyBullet ["synonym"] "English" none (pySplitlines "### Synonyms\n- happy") = true
    ∧ (linkifyLines ["synonym"] "English" none (pySplitlines "### Synonyms\n- happy")).length
        = (pySplitlines "### Synonyms\n- happy").length :=
  ⟨by decide,
   (c1_line_accounting ["synonym"] "English" "### Synonyms\n- happy").2.1.mp (by decide)⟩

/-- C2: if the completion call of category `c` throws with message `m`,
`ask_openai` returns the string `"Error: " ++ m` instead of propagating;
the flow still issues the requests of all five categories; and every
category whose call succeeds is populated from its own (stripped)
response, unaffected by the failure. -/
theorem c2_error_isolated (endpoint : Cat → Except String String)
    (word language : String) (c : Cat) (m : String)
    (h : endpoint c = Except.error m) :
    ask_openai (endpoint c) = "Error: " ++ m
    ∧ (∀ c' : Cat, ∃ r, Ev.call c' r ∈ tab1Body endpoint word language)
    ∧ (∀ (c' : Cat) (s : String), endpoint c' = Except.ok s →
        ask_openai (endpoint c') = pyStrip s) := by
  refine ⟨?_, ?_, ?_⟩
  · rw [h]
    rfl
  · intro c'
    cases c' with
    | meta => exact ⟨mkRequest (prompt_meta word), by simp [tab1Body]⟩
    | defn => exact ⟨mkRequest (definition_prompt word), by simp [tab1Body]⟩
    | exmpl => exact ⟨mkRequest (example_prompt word language), by simp [tab1Body]⟩
    | synonyms => exact ⟨mkRequest (synonym_prompt word language), by simp [tab1Body]⟩
    | phonetics => exact ⟨mkRequest (phonetic_prompt word language), by simp [tab1Body]⟩
  · intro c' s hs
    rw [hs]
    rfl

/-- C2 (witness): with an endpoint whose synonyms call throws "boom", the
synonyms result is the error string. -/
theorem c2_error_isolated_w :
    ask_openai (endpointW Cat.synonyms) = "Error: " ++ "boom" :=
  (c2_error_isolated endpointW "precarious" "English" Cat.synonyms "boom" rfl).1

/-- C3 (counterexample): the claim "every blank (whitespace-only after
trimming) word input is a no-op" is false: the word `" "` is blank after
trimming, yet the trigger starts a fetch cycle that issues completion
requests, because the guard `if trigger_word and word:` tests Python
truthiness (non-emptiness), not blankness. -/
theorem c3_cex :
    pyStrip " " = ""
    ∧ (tab1Main endpoint0 true " " "English").any isCall = true := by decide

/-- C3 (amended): only the exactly-empty word makes the trigger a no-op:
with `word = ""` the lookup produces no events at all (no request, no
render), for any endpoint and language. -/
theorem c3_empty_noop (endpoint : Cat → Except String String) (t : Bool)
    (language : String) :
    tab1Main endpoint t "" language = [] := by
  cases t <;> rfl

/-- C4 (counterexample): the claim "the caller suspends at a single join
point until all five requests complete before any result is delivered to
the renderer" is false on the code: in the concrete trace below a
completion request is issued after a block has already been delivered. -/
theorem c4_cex :
    catsOf (tab1Main endpoint0 true "precarious" "English")
        = [Cat.meta, Cat.defn, Cat.exmpl, Cat.synonyms, Cat.phonetics]
    ∧ callAfterOut (tab1Main endpoint0 true "precarious" "English") = true := by
  decide

/-- C4 (amended): the five requests are issued sequentially, one at a
time, in the fixed order meta, definition, example, synonyms, phonetics,
and some result is delivered to the renderer before a later request is
issued — there is no single join point. -/
theorem c4_sequential (endpoint : Cat → Except String String)
    (word language : String) :
    catsOf (tab1Body endpoint word language)
        = [Cat.meta, Cat.defn, Cat.exmpl, Cat.synonyms, Cat.phonetics]
    ∧ callAfterOut (tab1Body endpoint word language) = true := by
  constructor <;>
    (by_cases hl : language = "English" <;>
      simp [tab1Body, catsOf, callAfterOut, isCall, hl])

/-- C5 (counterexample): the claim "the model identifier takes one of two
values and not all five requests use the same model identifier" is false:
in the concrete trace below all five requests carry the single model
identifier `"gpt-4.1-nano"`. -/
theorem c5_cex :
    modelsOf (tab1Main endpoint0 true "precarious" "English")
      = ["gpt-4.1-nano", "gpt-4.1-nano", "gpt-4.1-nano", "gpt-4.1-nano",
         "gpt-4.1-nano"] := by decide

/-- C5 (amended): every one of the five requests carries the same single
model identifier `MODEL = "gpt-4.1-nano"`; there is only one model tier. -/
theorem c5_single_model (endpoint : Cat → Except String String)
    (word language : String) :
    modelsOf (tab1Body endpoint word language)
      = ["gpt-4.1-nano", "gpt-4.1-nano", "gpt-4.1-nano", "gpt-4.1-nano",
         "gpt-4.1-nano"] := by
  by_cases hl : language = "English" <;>
    simp [tab1Body, modelsOf, mkRequest, MODEL, hl]

/-- C6: the section cursor is sticky: over any run of lines none of which
contains a recognized keyword (case-insensitive substring match of the
trimmed lowercased line), the cursor is unchanged — blank lines, bullet
lines and any other non-keyword lines leave the active section in place. -/
theorem c6_cursor_sticky (keywords : List String) (cur : Option String)
    (ls : List String) (h : ∀ l ∈ ls, sectionKeywordHit keywords l = none) :
    sectionAfter keywords cur ls = cur := by
  induction ls generalizing cur with
  | nil => rfl
  | cons l tl ih =>
    have h1 : sectionKeywordHit keywords l = none := h l (List.mem_cons_self l tl)
    have h2 : ∀ x ∈ tl, sectionKeywordHit keywords x = none :=
      fun x hx => h x (List.mem_cons_of_mem l hx)
    have hcur : updateSection keywords cur l = cur := by
      simp [updateSection, h1]
    calc sectionAfter keywords cur (l :: tl)
        = sectionAfter keywords (updateSection keywords cur l) tl := rfl
      _ = sectionAfter keywords cur tl := by rw [hcur]
      _ = cur := ih cur h2

/-- C6 (witness): a blank line, a bullet line and a plain text line leave
the active "synonym" section in place. -/
theorem c6_cursor_sticky_w :
    sectionAfter ["synonym"] (some "synonym") ["", "- happy", "plain text line"]
      = some "synonym" :=
  c6_cursor_sticky ["synonym"] (some "synonym") ["", "- happy", "plain text line"]
    (by decide)

/-- C7: `linkify_list_section` is not idempotent: on an already-linkified
bullet list under a recognized header, a second application double-wraps
the bullet payload and yields a different result. -/
theorem c7_not_idempotent :
    linkify_list_section
        (linkify_list_section "### Synonyms\n- happy" ["synonym"] "English")
        ["synonym"] "English"
      ≠ linkify_list_section "### Synonyms\n- happy" ["synonym"] "English" := by
  decide

/-- C8: for a bullet line inside an eligible section whose extracted
phrase `p` is non-empty and contains a space, the rewritten line keeps `p`
verbatim as the visible link text while the link target uses `p` with each
space percent-encoded as `%20`. -/
theorem c8_space_encoding (cur : Option String) (line p language : String)
    (helig : cur = some "synonym" ∨ cur = some "phonetically")
    (hb : pyStartsWith (pyStrip line) "- " = true)
    (hp : phraseOf line = p) (hne : p ≠ "") (hsp : ' ' ∈ p.data) :
    processLine language cur line
        = ["- " ++ ("[" ++ p ++ "](?word=" ++ pyReplace p " " "%20"
            ++ "&lang=" ++ language ++ ")")]
    ∧ pyReplace p " " "%20" = String.mk (specEncodeSpaces p.data) := by
  constructor
  · have hpe : (phraseOf line == "") = false := by
      rw [hp]
      exact beq_eq_false_iff_ne.mpr hne
    rcases helig with h | h <;> subst h <;>
      simp [processLine, hb, hpe, hp, linkFor, hne]
  · exact pyReplace_space p

/-- C8 (witness): the bullet `"- well off"` in the synonyms section becomes
`"- [well off](?word=well%20off&lang=English)"`. -/
theorem c8_space_encoding_w :
    processLine "English" (some "synonym") "- well off"
        = ["- " ++ ("[" ++ "well off" ++ "](?word="
            ++ pyReplace "well off" " " "%20" ++ "&lang=" ++ "English" ++ ")")]
    ∧ pyReplace "well off" " " "%20"
        = String.mk (specEncodeSpaces ("well off" : String).data) :=
  c8_space_encoding (some "synonym") "- well off" "well off" "English"
    (Or.inl rfl) (by decide) (by decide) (by decide) (by decide)

/-- C9: every line in a prefix containing no recognized keyword passes
through the rewriting loop unmodified (the cursor starts unset), whatever
comes after — in particular any bullet line before the first keyword line
is left untouched. -/
theorem c9_prefix_untouched (keywords : List String) (lang : String)
    (ls1 ls2 : List String)
    (h : ∀ l ∈ ls1, sectionKeywordHit keywords l = none) :
    linkifyLines keywords lang none (ls1 ++ ls2)
      = ls1 ++ linkifyLines keywords lang none ls2 := by
  induction ls1 with
  | nil => rfl
  | cons l tl ih =>
    have h1 : sectionKeywordHit keywords l = none := h l (List.mem_cons_self l tl)
    have h2 : ∀ x ∈ tl, sectionKeywordHit keywords x = none :=
      fun x hx => h x (List.mem_cons_of_mem l hx)
    have hcur : updateSection keywords none l = none := by
      simp [updateSection, h1]
    have hpl : processLine lang none l = [l] := rfl
    calc linkifyLines keywords lang none (l :: (tl ++ ls2))
        = processLine lang (updateSection keywords none l) l
            ++ linkifyLines keywords lang (updateSection keywords none l) (tl ++ ls2) := rfl
      _ = [l] ++ linkifyLines keywords lang none (tl ++ ls2) := by rw [hcur, hpl]
      _ = [l] ++ (tl ++ linkifyLines keywords lang none ls2) := by rw [ih h2]
      _ = (l :: tl) ++ linkifyLines keywords lang none ls2 := by simp

/-- C9 (witness): the bullet `"- happy"` before the first keyword line
passes through unmodified, while the bullet after the header is wrapped. -/
theorem c9_prefix_untouched_w :
    linkifyLines ["synonym"] "English" none
        (["- happy", "intro"] ++ ["### Synonyms", "- joyful"])
      = ["- happy", "intro"]
        ++ linkifyLines ["synonym"] "English" none ["### Synonyms", "- joyful"] :=
  c9_prefix_untouched ["synonym"] "English" ["- happy", "intro"]
    ["### Synonyms", "- joyful"] (by decide)

/-- C10: in the generated link construct, the visible text is the payload
verbatim and the target percent-encodes exactly the space characters:
every non-space character of the payload (ampersands, equals signs,
question marks, parentheses, brackets, ...) is copied verbatim,
unescaped. -/
theorem c10_verbatim_target (phrase language : String) :
    linkFor language phrase
      = "[" ++ phrase ++ "](?word=" ++ String.mk (specEncodeSpaces phrase.data)
          ++ "&lang=" ++ language ++ ")" := by
  unfold linkFor
  rw [pyReplace_space]
